import Mathlib

/-!
Shallow embedding of the `GovernanceManager` compliance engine
(`Governance_Compliance_Project/main.py`).

Modelling conventions:
* Wall-clock timestamps (`datetime.datetime.now()`, `int(time.time())`) are
  natural-number Unix seconds, passed explicitly as a `t : Nat` argument to
  every operation that reads the clock.
* Python `float` fields (`compliance_drift_factor`, `automation_level`,
  probabilities) are modelled as exact rationals (`Rat`); the decimal
  literals of the source (0.3, 0.7, 0.15, ...) denote the corresponding
  exact rationals.
* The `random.random()` / `random.choice` draws are injected as explicit
  parameters: a stream `rand : Nat → Rat` of uniform draws for the drift
  check, a single draw `r : Rat` for the incident trigger, and a natural
  index `choice` into the fixed template catalog for template selection.
* `datetime.strptime` in the overdue-review check is injected as a parameter
  `parseDate : String → Option Nat` (`none` models a `ValueError`).
* Python mutates control objects shared between the two per-standard lists
  via the concatenation `iso27001_controls + pci_dss_controls`; here every
  loop rebuilds the concatenated list and `setAllControls` writes the two
  (length-preserved) segments back.
-/

namespace Governance

inductive ComplianceStatus where
  | compliant
  | non_compliant
  | in_progress
  | not_assessed
deriving DecidableEq

def ComplianceStatus.value : ComplianceStatus → String
  | .compliant => "compliant"
  | .non_compliant => "non_compliant"
  | .in_progress => "in_progress"
  | .not_assessed => "not_assessed"

inductive RiskLevel where
  | low
  | medium
  | high
  | critical
deriving DecidableEq

def RiskLevel.value : RiskLevel → String
  | .low => "low"
  | .medium => "medium"
  | .high => "high"
  | .critical => "critical"

structure ControlRequirement where
  control_id : String
  title : String
  description : String
  standard : String
  status : ComplianceStatus
  risk_level : RiskLevel
  implementation_date : String
  next_review_date : String
  responsible_team : String
  evidence_documents : List String
  notes : String := ""
  last_assessment_date : Option Nat := none
  compliance_drift_factor : Rat := 0
  incident_count : Nat := 0
  automation_level : Rat := 0
  dependency_controls : List String := []
deriving DecidableEq

structure ComplianceIncident where
  incident_id : String
  title : String
  description : String
  affected_controls : List String
  severity : RiskLevel
  occurrence_time : Nat
  resolution_time : Option Nat := none
  impact_duration_hours : Nat := 24
deriving DecidableEq

/-- Alerts are dictionaries in the source; `severity` stores the enum's
`.value` string exactly as the source does. -/
structure Alert where
  id : String
  title : String
  message : String
  severity : String
  timestamp : Nat
  acknowledged : Bool
deriving DecidableEq

/-- Audit-log entries: the source appends one of two dictionary shapes
(`status_update` from `update_control_status`, `solution_implemented` from
`implement_solution`). -/
inductive AuditEntry where
  | statusUpdate (timestamp : Nat) (control_id : String)
      (old_status new_status : String) (notes : String)
  | solutionImplemented (timestamp : Nat) (control_id : String)
      (solution_type : String) (description : String)
deriving DecidableEq

structure GovernanceManager where
  iso27001_controls : List ControlRequirement
  pci_dss_controls : List ControlRequirement
  audit_log : List AuditEntry
  incidents : List ComplianceIncident
  alerts : List Alert
deriving DecidableEq

/-- The concatenation `self.iso27001_controls + self.pci_dss_controls` that
every control loop of the source iterates over. -/
def GovernanceManager.allControls (g : GovernanceManager) : List ControlRequirement :=
  g.iso27001_controls ++ g.pci_dss_controls

/-- Write a transformed concatenated control list back into the two
per-standard lists (the source mutates the shared control objects in place,
which preserves list lengths and positions). -/
def setAllControls (g : GovernanceManager) (cs : List ControlRequirement) : GovernanceManager :=
  { g with
    iso27001_controls := cs.take g.iso27001_controls.length,
    pci_dss_controls := cs.drop g.iso27001_controls.length }

/-- The alert dictionary built by `_create_alert`; `n` is `len(self.alerts)`
at creation time and `t` the current integer second. -/
def mkAlert (t : Nat) (n : Nat) (title message : String) (severity : RiskLevel) : Alert :=
  { id := "ALT-" ++ toString t ++ "-" ++ toString n
    title := title
    message := message
    severity := severity.value
    timestamp := t
    acknowledged := false }

/-- Embedding of `_create_alert`. -/
def create_alert (g : GovernanceManager) (t : Nat) (title message : String)
    (severity : RiskLevel) : GovernanceManager :=
  { g with alerts := g.alerts ++ [mkAlert t g.alerts.length title message severity] }

/-- The first-match-and-return loop of `update_control_status`: finds the
first control with the given id, sets status and notes, and produces the
audit entry recording the old and new status. -/
def updateStatusLoop (t : Nat) (control_id : String) (status : ComplianceStatus)
    (notes : String) : List ControlRequirement → Option (List ControlRequirement × AuditEntry)
  | [] => none
  | c :: cs =>
    if c.control_id = control_id then
      some ({ c with status := status, notes := notes } :: cs,
        AuditEntry.statusUpdate t control_id c.status.value status.value notes)
    else
      (updateStatusLoop t control_id status notes cs).map (fun r => (c :: r.1, r.2))

/-- Embedding of `update_control_status`. -/
def update_control_status (g : GovernanceManager) (t : Nat) (control_id : String)
    (status : ComplianceStatus) (notes : String) : GovernanceManager × Bool :=
  match updateStatusLoop t control_id status notes g.allControls with
  | none => (g, false)
  | some r =>
    (setAllControls { g with audit_log := g.audit_log ++ [r.2] } r.1, true)

/-- Two-decimal rounding: the model of Python's `round(x, 2)` on the exact
rationals standing for the source's floats. -/
def roundTo2 (q : Rat) : Rat := ((round (q * 100) : Int) : Rat) / 100

structure StandardSummary where
  standard : String
  total_controls : Nat
  compliant : Nat
  non_compliant : Nat
  in_progress : Nat
  not_assessed : Nat
  compliance_percentage : Rat
deriving DecidableEq

/-- Embedding of `_get_standard_summary`. -/
def get_standard_summary (controls : List ControlRequirement) (standard : String) :
    StandardSummary :=
  let total := controls.length
  let compliant := (controls.filter (fun c => decide (c.status = ComplianceStatus.compliant))).length
  let non_compliant := (controls.filter (fun c => decide (c.status = ComplianceStatus.non_compliant))).length
  let in_progress := (controls.filter (fun c => decide (c.status = ComplianceStatus.in_progress))).length
  let not_assessed := (controls.filter (fun c => decide (c.status = ComplianceStatus.not_assessed))).length
  let compliance_percentage : Rat :=
    if total > 0 then (compliant : Rat) / (total : Rat) * 100 else 0
  { standard := standard
    total_controls := total
    compliant := compliant
    non_compliant := non_compliant
    in_progress := in_progress
    not_assessed := not_assessed
    compliance_percentage := roundTo2 compliance_percentage }

/-- The per-control loop of `_apply_incident_impact`, threading the alert
list (alert ids depend on the running alert count). -/
def impactLoop (t : Nat) (inc : ComplianceIncident) :
    List Alert → List ControlRequirement → List ControlRequirement × List Alert
  | alerts, [] => (([] : List ControlRequirement), alerts)
  | alerts, c :: cs =>
    if inc.affected_controls.contains c.control_id then
      let c1 := { c with incident_count := c.incident_count + 1 }
      if c.status = ComplianceStatus.compliant then
        let c2 := { c1 with status := ComplianceStatus.non_compliant }
        let alerts1 := alerts ++ [mkAlert t alerts.length
          ("Incident impact: " ++ c.control_id)
          ("Control affected by incident: " ++ inc.title) inc.severity]
        let r := impactLoop t inc alerts1 cs
        (c2 :: r.1, r.2)
      else
        let r := impactLoop t inc alerts cs
        (c1 :: r.1, r.2)
    else
      let r := impactLoop t inc alerts cs
      (c :: r.1, r.2)

/-- Embedding of `_apply_incident_impact`. -/
def apply_incident_impact (g : GovernanceManager) (t : Nat)
    (inc : ComplianceIncident) : GovernanceManager :=
  let r := impactLoop t inc g.alerts g.allControls
  setAllControls { g with alerts := r.2 } r.1

/-- The `incident_types` catalog of `_simulate_incidents`. -/
def incidentTypesSim : List (String × String × List String × RiskLevel) :=
  [("SEC-001", "Failed Password Audit", ["PCI.2.1"], RiskLevel.high),
   ("SEC-002", "Firewall Misconfiguration", ["PCI.1.1"], RiskLevel.critical),
   ("SEC-003", "Asset Discovery Gap", ["A.8.1.1"], RiskLevel.medium),
   ("SEC-004", "Policy Violation", ["A.5.1.1"], RiskLevel.high)]

/-- The `incident_types` catalog of `force_incident`. -/
def incidentTypesForce : List (String × String × List String × RiskLevel) :=
  [("SEC-001", "Failed Password Audit", ["PCI.2.1"], RiskLevel.high),
   ("SEC-002", "Firewall Misconfiguration", ["PCI.1.1"], RiskLevel.critical),
   ("SEC-003", "Asset Discovery Gap", ["A.8.1.1"], RiskLevel.medium),
   ("SEC-004", "Policy Violation", ["A.5.1.1"], RiskLevel.high),
   ("SEC-005", "Unauthorized Access Detected", ["A.6.1.1"], RiskLevel.critical),
   ("SEC-006", "Encryption Key Exposure", ["PCI.3.4"], RiskLevel.critical)]

/-- Fallback template (never used for in-range `choice` indices). -/
def defaultIncidentType : String × String × List String × RiskLevel :=
  ("SEC-001", "Failed Password Audit", ["PCI.2.1"], RiskLevel.high)

/-- Incident-identifier construction shared by `_simulate_incidents` and
`force_incident`: the f-string `f"{incident_id}-{int(time.time())}"`. -/
def mkIncidentId (code : String) (t : Nat) : String :=
  code ++ "-" ++ toString t

/-- The incident record built from a selected template at second `t`;
`description_head` is the differing f-string head of the two call sites. -/
def mkIncident (tpl : String × String × List String × RiskLevel)
    (description_head : String) (t : Nat) : ComplianceIncident :=
  { incident_id := mkIncidentId tpl.1 t
    title := tpl.2.1
    description := description_head ++ tpl.2.1
    affected_controls := tpl.2.2.1
    severity := tpl.2.2.2
    occurrence_time := t }

/-- Embedding of `_simulate_incidents`; `r` is the trigger draw and `choice`
the index drawn by `random.choice`. -/
def simulate_incidents (g : GovernanceManager) (t : Nat) (r : Rat) (choice : Nat) :
    GovernanceManager :=
  if r < 0.15 then
    let inc := mkIncident (incidentTypesSim.getD choice defaultIncidentType)
      ("Automated incident simulation: ") t
    let g1 := { g with incidents := g.incidents ++ [inc] }
    apply_incident_impact g1 t inc
  else g

/-- Embedding of `force_incident` (its `incident_type` parameter is unused by
the source; template selection is `random.choice`, modelled by `choice`). -/
def force_incident (g : GovernanceManager) (t : Nat) (choice : Nat) :
    GovernanceManager × ComplianceIncident :=
  let inc := mkIncident (incidentTypesForce.getD choice defaultIncidentType)
    ("Manually triggered incident: ") t
  let g1 := { g with incidents := g.incidents ++ [inc] }
  (apply_incident_impact g1 t inc, inc)

/-- Whole days elapsed: `(datetime.now() - last_assessment_date).days`
(floor division of the elapsed seconds, also for negative spans). -/
def daysSince (t last : Nat) : Int := ((t : Int) - (last : Int)).fdiv 86400

/-- The drift probability of `_check_compliance_drift`. -/
def driftProbability (t : Nat) (c : ControlRequirement) (last : Nat) : Rat :=
  c.compliance_drift_factor * ((daysSince t last : Rat) / 30) * (1 - c.automation_level)

/-- The per-control loop of `_check_compliance_drift`; `k` indexes the next
unused uniform draw (the source calls `random.random()` only for compliant
controls with a non-null last-assessment date). -/
def driftLoop (t : Nat) (rand : Nat → Rat) :
    Nat → List Alert → List ControlRequirement → List ControlRequirement × List Alert
  | _, alerts, [] => (([] : List ControlRequirement), alerts)
  | k, alerts, c :: cs =>
    if c.status = ComplianceStatus.compliant then
      match c.last_assessment_date with
      | some last =>
        if rand k < driftProbability t c last * 0.3 then
          let c1 := { c with status := ComplianceStatus.in_progress }
          let alerts1 := alerts ++ [mkAlert t alerts.length
            ("Compliance drift detected for " ++ c.control_id)
            ("Control " ++ c.control_id ++ " has drifted from compliant status due to time decay")
            c.risk_level]
          let r := driftLoop t rand (k + 1) alerts1 cs
          (c1 :: r.1, r.2)
        else
          let r := driftLoop t rand (k + 1) alerts cs
          (c :: r.1, r.2)
      | none =>
        let r := driftLoop t rand k alerts cs
        (c :: r.1, r.2)
    else
      let r := driftLoop t rand k alerts cs
      (c :: r.1, r.2)

/-- Embedding of `_check_compliance_drift`. -/
def check_compliance_drift (g : GovernanceManager) (t : Nat) (rand : Nat → Rat) :
    GovernanceManager :=
  let r := driftLoop t rand 0 g.alerts g.allControls
  setAllControls { g with alerts := r.2 } r.1

/-- The per-control loop of `_check_overdue_reviews`; a `none` parse models
the `ValueError` branch (silently skipped), the emptiness test models Python
string truthiness. -/
def overdueLoop (t : Nat) (parseDate : String → Option Nat) :
    List Alert → List ControlRequirement → List Alert
  | alerts, [] => alerts
  | alerts, c :: cs =>
    if c.next_review_date ≠ "" then
      match parseDate c.next_review_date with
      | some rd =>
        if rd < t then
          overdueLoop t parseDate (alerts ++ [mkAlert t alerts.length
            ("Overdue review: " ++ c.control_id)
            ("Control " ++ c.control_id ++ " is past its review date")
            RiskLevel.medium]) cs
        else overdueLoop t parseDate alerts cs
      | none => overdueLoop t parseDate alerts cs
    else overdueLoop t parseDate alerts cs

/-- Embedding of `_check_overdue_reviews`. -/
def check_overdue_reviews (g : GovernanceManager) (t : Nat)
    (parseDate : String → Option Nat) : GovernanceManager :=
  { g with alerts := overdueLoop t parseDate g.alerts g.allControls }

/-- Embedding of `get_active_alerts`. -/
def get_active_alerts (g : GovernanceManager) : List Alert :=
  g.alerts.filter (fun a => !a.acknowledged)

/-- The first-match loop of `acknowledge_alert`. -/
def acknowledgeLoop (alert_id : String) : List Alert → Option (List Alert)
  | [] => none
  | a :: rest =>
    if a.id = alert_id then some ({ a with acknowledged := true } :: rest)
    else (acknowledgeLoop alert_id rest).map (fun l => a :: l)

/-- Embedding of `acknowledge_alert`. -/
def acknowledge_alert (g : GovernanceManager) (alert_id : String) :
    GovernanceManager × Bool :=
  match acknowledgeLoop alert_id g.alerts with
  | some l => ({ g with alerts := l }, true)
  | none => (g, false)

/-- The incident-scan loop of `resolve_incident`: first incident whose id
matches and whose `resolution_time` is null gets its resolution time set. -/
def resolveIncidentLoop (t : Nat) (incident_id : String) :
    List ComplianceIncident → Option (List ComplianceIncident × ComplianceIncident)
  | [] => none
  | inc :: incs =>
    if inc.incident_id = incident_id ∧ inc.resolution_time = none then
      some ({ inc with resolution_time := some t } :: incs,
        { inc with resolution_time := some t })
    else
      (resolveIncidentLoop t incident_id incs).map (fun r => (inc :: r.1, r.2))

/-- The control-restoration loop of `resolve_incident`, threading the alert
list. -/
def resolveControlsLoop (t : Nat) (affected : List String) :
    List Alert → List ControlRequirement → List ControlRequirement × List Alert
  | alerts, [] => (([] : List ControlRequirement), alerts)
  | alerts, c :: cs =>
    if affected.contains c.control_id then
      if c.status = ComplianceStatus.non_compliant then
        let c1 := { c with status := ComplianceStatus.compliant,
                           last_assessment_date := some t }
        let alerts1 := alerts ++ [mkAlert t alerts.length
          ("Control restored: " ++ c.control_id)
          ("Control " ++ c.control_id ++ " restored to compliance after incident resolution")
          RiskLevel.low]
        let r := resolveControlsLoop t affected alerts1 cs
        (c1 :: r.1, r.2)
      else
        let r := resolveControlsLoop t affected alerts cs
        (c :: r.1, r.2)
    else
      let r := resolveControlsLoop t affected alerts cs
      (c :: r.1, r.2)

/-- Embedding of `resolve_incident`. -/
def resolve_incident (g : GovernanceManager) (t : Nat) (incident_id : String) :
    GovernanceManager × Bool :=
  match resolveIncidentLoop t incident_id g.incidents with
  | none => (g, false)
  | some r =>
    let cr := resolveControlsLoop t r.2.affected_controls g.alerts g.allControls
    (setAllControls { g with incidents := r.1, alerts := cr.2 } cr.1, true)

/-- The `solutions` dictionary lookup `solutions.get(solution_type, ...)` of
`implement_solution`. -/
def solutionsGet (solution_type : String) : String :=
  if solution_type = "automation" then "Automated monitoring and enforcement implemented"
  else if solution_type = "training" then "Staff training and awareness program completed"
  else if solution_type = "policy_update" then "Updated policies and procedures implemented"
  else if solution_type = "technology" then "New security technology deployed"
  else if solution_type = "process" then "Improved security processes implemented"
  else "Generic solution implemented"

/-- The scan loop of `implement_solution`: the first control whose id matches
and whose status is applicable is updated; an id match with an inapplicable
status falls through and the scan continues. -/
def implementSolutionLoop (t : Nat) (control_id solution_type : String) :
    List ControlRequirement → Option (List ControlRequirement × ControlRequirement)
  | [] => none
  | c :: cs =>
    if c.control_id = control_id ∧
        (c.status = ComplianceStatus.non_compliant ∨ c.status = ComplianceStatus.in_progress) then
      let c1 := { c with status := ComplianceStatus.compliant, last_assessment_date := some t }
      let c2 :=
        if solution_type = "automation" then
          { c1 with automation_level := min 1.0 (c1.automation_level + 0.3),
                    compliance_drift_factor := c1.compliance_drift_factor * 0.7 }
        else if solution_type = "training" then
          { c1 with compliance_drift_factor := c1.compliance_drift_factor * 0.8 }
        else if solution_type = "technology" then
          { c1 with automation_level := min 1.0 (c1.automation_level + 0.4),
                    compliance_drift_factor := c1.compliance_drift_factor * 0.6 }
        else c1
      let c3 := { c2 with notes := "Solution: " ++ solutionsGet solution_type }
      some (c3 :: cs, c3)
    else
      (implementSolutionLoop t control_id solution_type cs).map (fun r => (c :: r.1, r.2))

/-- Embedding of `implement_solution`. -/
def implement_solution (g : GovernanceManager) (t : Nat)
    (control_id solution_type : String) : GovernanceManager × Bool :=
  match implementSolutionLoop t control_id solution_type g.allControls with
  | none => (g, false)
  | some r =>
    let desc := solutionsGet solution_type
    let g1 := setAllControls g r.1
    let g2 := { g1 with audit_log := g1.audit_log ++
      [AuditEntry.solutionImplemented t control_id solution_type desc] }
    let g3 := create_alert g2 t ("Solution implemented: " ++ r.2.control_id)
      ("Control " ++ r.2.control_id ++ " restored via " ++ solution_type ++ ": " ++ desc)
      RiskLevel.low
    (g3, true)

/-! Auxiliary definitions used to state and prove the claims. -/

/-- Numeric value of a decimal digit character. -/
def charToDigit (c : Char) : Nat := c.toNat - 48

/-- Value of a most-significant-first list of decimal digit characters. -/
def decVal (l : List Char) : Nat := l.foldl (fun a c => a * 10 + charToDigit c) 0

/-- Per-control effect of `_apply_incident_impact` on the registry. -/
def impactControl (inc : ComplianceIncident) (c : ControlRequirement) : ControlRequirement :=
  if inc.affected_controls.contains c.control_id then
    if c.status = ComplianceStatus.compliant then
      { c with incident_count := c.incident_count + 1, status := ComplianceStatus.non_compliant }
    else { c with incident_count := c.incident_count + 1 }
  else c

/-- The alerts `_apply_incident_impact` appends, starting at alert count `n`. -/
def impactAlerts (t : Nat) (inc : ComplianceIncident) : Nat → List ControlRequirement → List Alert
  | _, [] => []
  | n, c :: cs =>
    if inc.affected_controls.contains c.control_id ∧ c.status = ComplianceStatus.compliant then
      mkAlert t n ("Incident impact: " ++ c.control_id)
          ("Control affected by incident: " ++ inc.title) inc.severity
        :: impactAlerts t inc (n + 1) cs
    else impactAlerts t inc n cs

/-- Per-control effect of the restoration loop of `resolve_incident`. -/
def restoreControl (t : Nat) (affected : List String) (c : ControlRequirement) :
    ControlRequirement :=
  if affected.contains c.control_id ∧ c.status = ComplianceStatus.non_compliant then
    { c with status := ComplianceStatus.compliant, last_assessment_date := some t }
  else c

/-- The alerts the restoration loop of `resolve_incident` appends, starting at
alert count `n`. -/
def restoredAlerts (t : Nat) (affected : List String) : Nat → List ControlRequirement → List Alert
  | _, [] => []
  | n, c :: cs =>
    if affected.contains c.control_id ∧ c.status = ComplianceStatus.non_compliant then
      mkAlert t n ("Control restored: " ++ c.control_id)
          ("Control " ++ c.control_id ++ " restored to compliance after incident resolution")
          RiskLevel.low
        :: restoredAlerts t affected (n + 1) cs
    else restoredAlerts t affected n cs

/-- A control is examined by the drift check (and consumes a uniform draw)
iff it is compliant with a non-null last-assessment date. -/
def driftEligible (c : ControlRequirement) : Bool :=
  decide (c.status = ComplianceStatus.compliant) && c.last_assessment_date.isSome

/-- Whether the draw `r` makes the control drift. -/
def driftTriggered (t : Nat) (r : Rat) (c : ControlRequirement) : Bool :=
  match c.last_assessment_date with
  | some last => decide (r < driftProbability t c last * 0.3)
  | none => false

/-- The drift alert for control `c` at alert count `n`. -/
def driftAlert (t : Nat) (n : Nat) (c : ControlRequirement) : Alert :=
  mkAlert t n ("Compliance drift detected for " ++ c.control_id)
    ("Control " ++ c.control_id ++ " has drifted from compliant status due to time decay")
    c.risk_level

/-- Registry effect of the drift check, with `k` counting consumed draws. -/
def driftMapGo (t : Nat) (rand : Nat → Rat) : Nat → List ControlRequirement → List ControlRequirement
  | _, [] => []
  | k, c :: cs =>
    if driftEligible c then
      (if driftTriggered t (rand k) c then { c with status := ComplianceStatus.in_progress } else c)
        :: driftMapGo t rand (k + 1) cs
    else c :: driftMapGo t rand k cs

/-- The alerts the drift check appends; `k` counts consumed draws and `n` the
running alert count. -/
def driftAlertsGo (t : Nat) (rand : Nat → Rat) : Nat → Nat → List ControlRequirement → List Alert
  | _, _, [] => []
  | k, n, c :: cs =>
    if driftEligible c then
      if driftTriggered t (rand k) c then
        driftAlert t n c :: driftAlertsGo t rand (k + 1) (n + 1) cs
      else driftAlertsGo t rand (k + 1) n cs
    else driftAlertsGo t rand k n cs

/-- Per-control success update of `implement_solution` (status, assessment
date, solution-specific parameter adjustment, notes). -/
def solutionUpdate (t : Nat) (solution_type : String) (c : ControlRequirement) :
    ControlRequirement :=
  let c1 := { c with status := ComplianceStatus.compliant, last_assessment_date := some t }
  let c2 :=
    if solution_type = "automation" then
      { c1 with automation_level := min 1.0 (c1.automation_level + 0.3),
                compliance_drift_factor := c1.compliance_drift_factor * 0.7 }
    else if solution_type = "training" then
      { c1 with compliance_drift_factor := c1.compliance_drift_factor * 0.8 }
    else if solution_type = "technology" then
      { c1 with automation_level := min 1.0 (c1.automation_level + 0.4),
                compliance_drift_factor := c1.compliance_drift_factor * 0.6 }
    else c1
  { c2 with notes := "Solution: " ++ solutionsGet solution_type }

/-- Pointwise comparison of incident counts: every control's `incident_count`
in `g'` is at least its count in `g` (controls matched by position; every
engine operation preserves the registry's length and order). -/
def countsMono (g g' : GovernanceManager) : Prop :=
  List.Forall₂ (fun a b => a ≤ b)
    (g.allControls.map (fun c => c.incident_count))
    (g'.allControls.map (fun c => c.incident_count))

/-- Empty engine state used by the concrete counterexamples and witnesses. -/
def g0 : GovernanceManager :=
  { iso27001_controls := [], pci_dss_controls := [], audit_log := [],
    incidents := [], alerts := [] }



def gDup : GovernanceManager := (force_incident (force_incident g0 100 0).1 100 0).1

def gDupHalf : GovernanceManager := (resolve_incident gDup 200 ("SEC-001-100")).1

def incA : ComplianceIncident :=
  { incident_id := "SEC-001-50", title := "Failed Password Audit",
    description := "Manually triggered incident: Failed Password Audit",
    affected_controls := ["PCI.2.1"], severity := RiskLevel.high,
    occurrence_time := 50, resolution_time := some 60 }

def gC2W : GovernanceManager := { g0 with incidents := [incA] }

def alertA : Alert :=
  { id := "ALT-5-0", title := "Overdue review: PCI.1.1",
    message := "Control PCI.1.1 is past its review date", severity := "medium",
    timestamp := 5, acknowledged := true }

def gC10W : GovernanceManager := { g0 with alerts := [alertA] }


def cPCI21 : ControlRequirement :=
  { control_id := "PCI.2.1", title := "Change Default Passwords",
    description := "Change vendor-supplied defaults for system passwords and security parameters",
    standard := "PCI_DSS", status := ComplianceStatus.compliant,
    risk_level := RiskLevel.high, implementation_date := "2024-02-15",
    next_review_date := "2024-05-15", responsible_team := "System Administration",
    evidence_documents := [] }

def incW : ComplianceIncident :=
  { incident_id := "SEC-001-5", title := "Failed Password Audit",
    description := "Manually triggered incident: Failed Password Audit",
    affected_controls := ["PCI.2.1"], severity := RiskLevel.high, occurrence_time := 5 }

def gC5W : GovernanceManager := { g0 with pci_dss_controls := [cPCI21] }

def cNC : ControlRequirement := { cPCI21 with status := ComplianceStatus.non_compliant }

def incOpen : ComplianceIncident :=
  { incident_id := "SEC-001-7", title := "Failed Password Audit",
    description := "Manually triggered incident: Failed Password Audit",
    affected_controls := ["PCI.2.1"], severity := RiskLevel.high, occurrence_time := 7 }

def gC3W : GovernanceManager := { g0 with pci_dss_controls := [cNC], incidents := [incOpen] }


def cAuto : ControlRequirement :=
  { cPCI21 with status := ComplianceStatus.non_compliant,
                automation_level := 0.5, compliance_drift_factor := 0.05 }

def gC4W : GovernanceManager := { g0 with pci_dss_controls := [cAuto] }


def driftTrigCount (t : Nat) (rand : Nat → Rat) : Nat → List ControlRequirement → Nat
  | _, [] => 0
  | k, c :: cs =>
    if driftEligible c then
      if driftTriggered t (rand k) c then 1 + driftTrigCount t rand (k + 1) cs
      else driftTrigCount t rand (k + 1) cs
    else driftTrigCount t rand k cs


def cDrift : ControlRequirement :=
  { cPCI21 with compliance_drift_factor := 0.3, last_assessment_date := some 5 }

def gC7W : GovernanceManager := { g0 with iso27001_controls := [cDrift] }


/-! Structural lemmas. -/

lemma charToDigit_digitChar (d : Nat) (h : d < 10) :
    charToDigit (Nat.digitChar d) = d := by
  interval_cases d <;> rfl

lemma toDigitsCore_append (fuel : Nat) : ∀ (n : Nat) (ds : List Char),
    Nat.toDigitsCore 10 fuel n ds = Nat.toDigitsCore 10 fuel n [] ++ ds := by
  induction fuel with
  | zero => intro n ds; simp [Nat.toDigitsCore]
  | succ fuel ih =>
    intro n ds
    simp only [Nat.toDigitsCore]
    by_cases h : n / 10 = 0
    · simp [h]
    · simp only [h, if_false]
      rw [ih (n / 10) (Nat.digitChar (n % 10) :: ds), ih (n / 10) [Nat.digitChar (n % 10)]]
      simp

lemma decVal_toDigitsCore (fuel : Nat) : ∀ n : Nat, n < 10 ^ fuel →
    decVal (Nat.toDigitsCore 10 fuel n []) = n := by
  induction fuel with
  | zero => intro n h; interval_cases n; rfl
  | succ fuel ih =>
    intro n h
    simp only [Nat.toDigitsCore]
    by_cases h0 : n / 10 = 0
    · have hn : n < 10 := by omega
      simp only [h0, if_true]
      simp only [decVal, List.foldl]
      rw [Nat.mod_eq_of_lt hn, charToDigit_digitChar n hn]
      omega
    · simp only [h0, if_false]
      rw [toDigitsCore_append fuel (n / 10) [Nat.digitChar (n % 10)]]
      have hdiv : n / 10 < 10 ^ fuel := by
        have hp : (10 : Nat) ^ (fuel + 1) = 10 ^ fuel * 10 := pow_succ 10 fuel
        omega
      simp only [decVal, List.foldl_append, List.foldl]
      have hrec := ih (n / 10) hdiv
      simp only [decVal] at hrec
      rw [hrec, charToDigit_digitChar (n % 10) (Nat.mod_lt n (by norm_num))]
      omega

lemma decVal_repr (n : Nat) : decVal (Nat.repr n).data = n := by
  have h1 : n < 10 ^ n := Nat.lt_pow_self (by norm_num) n
  have h : n < 10 ^ (n + 1) :=
    lt_of_lt_of_le h1 (Nat.pow_le_pow_right (by norm_num) (Nat.le_succ n))
  exact decVal_toDigitsCore (n + 1) n h

lemma string_data_append (a b : String) : (a ++ b).data = a.data ++ b.data := rfl

lemma toString_nat_eq (t : Nat) : toString t = Nat.repr t := rfl

/-- Incident identifiers built from equal-length template codes coincide
exactly when both the code and the integer second coincide. -/
lemma mkIncidentId_eq_iff (c1 c2 : String) (hlen : c1.length = c2.length) (t s : Nat) :
    mkIncidentId c1 t = mkIncidentId c2 s ↔ (c1 = c2 ∧ t = s) := by
  constructor
  · intro h
    have hd : c1.data ++ ('-' :: (Nat.repr t).data)
        = c2.data ++ ('-' :: (Nat.repr s).data) := by
      have hdd := congrArg String.data h
      simpa [mkIncidentId, string_data_append, toString_nat_eq] using hdd
    have hlen' : c1.data.length = c2.data.length := hlen
    obtain ⟨h1, h2⟩ := List.append_inj hd hlen'
    refine ⟨?_, ?_⟩
    · cases c1; cases c2; exact congrArg String.mk (by simpa using h1)
    · injection h2 with h3 h4
      have ha := decVal_repr t
      rw [h4, decVal_repr s] at ha
      omega
  · rintro ⟨rfl, rfl⟩; rfl

lemma allControls_setAllControls (g : GovernanceManager) (cs : List ControlRequirement) :
    (setAllControls g cs).allControls = cs := by
  simp [setAllControls, GovernanceManager.allControls]

lemma setAllControls_audit (g : GovernanceManager) (cs : List ControlRequirement) :
    (setAllControls g cs).audit_log = g.audit_log := rfl

lemma setAllControls_incidents (g : GovernanceManager) (cs : List ControlRequirement) :
    (setAllControls g cs).incidents = g.incidents := rfl

lemma setAllControls_alerts (g : GovernanceManager) (cs : List ControlRequirement) :
    (setAllControls g cs).alerts = g.alerts := rfl

/-! Loop characterizations. -/


lemma impactLoop_eq (t : Nat) (inc : ComplianceIncident) :
    ∀ (cs : List ControlRequirement) (alerts : List Alert),
    impactLoop t inc alerts cs
      = (cs.map (impactControl inc), alerts ++ impactAlerts t inc alerts.length cs) := by
  intro cs
  induction cs with
  | nil => intro alerts; simp [impactLoop, impactAlerts]
  | cons c cs ih =>
    intro alerts
    by_cases h1 : inc.affected_controls.contains c.control_id
    · by_cases h2 : c.status = ComplianceStatus.compliant
      · simp only [impactLoop, impactAlerts, List.map, h1, h2, if_true, and_self,
          impactControl, ite_true]
        simp [ih, List.length_append, List.append_assoc]
      · simp only [impactLoop, impactAlerts, List.map, h1, h2, if_true, if_false,
          impactControl, and_false, ite_false, ite_true]
        simp [ih]
    · simp only [impactLoop, impactAlerts, List.map, h1, if_false, impactControl,
        false_and, ite_false]
      simp [ih]



lemma resolveControlsLoop_eq (t : Nat) (aff : List String) :
    ∀ (cs : List ControlRequirement) (alerts : List Alert),
    resolveControlsLoop t aff alerts cs
      = (cs.map (restoreControl t aff), alerts ++ restoredAlerts t aff alerts.length cs) := by
  intro cs
  induction cs with
  | nil => intro alerts; simp [resolveControlsLoop, restoredAlerts]
  | cons c cs ih =>
    intro alerts
    by_cases h1 : aff.contains c.control_id
    · by_cases h2 : c.status = ComplianceStatus.non_compliant
      · simp only [resolveControlsLoop, restoredAlerts, List.map, h1, h2, if_true, and_self,
          restoreControl, ite_true]
        simp [ih, List.length_append, List.append_assoc]
      · simp only [resolveControlsLoop, restoredAlerts, List.map, h1, h2, if_true, if_false,
          restoreControl, and_false, ite_false, ite_true]
        simp [ih]
    · simp only [resolveControlsLoop, restoredAlerts, List.map, h1, if_false, restoreControl,
        false_and, ite_false]
      simp [ih]

lemma driftLoop_eq (t : Nat) (rand : Nat → Rat) :
    ∀ (cs : List ControlRequirement) (k : Nat) (alerts : List Alert),
    driftLoop t rand k alerts cs
      = (driftMapGo t rand k cs, alerts ++ driftAlertsGo t rand k alerts.length cs) := by
  intro cs
  induction cs with
  | nil => intro k alerts; simp [driftLoop, driftMapGo, driftAlertsGo]
  | cons c cs ih =>
    intro k alerts
    by_cases hs : c.status = ComplianceStatus.compliant
    · cases hl : c.last_assessment_date with
      | some last =>
        by_cases htr : rand k < driftProbability t c last * 0.3
        · simp only [driftLoop, hs, hl, if_true, htr, ite_true, driftMapGo, driftAlertsGo,
            driftEligible, driftTriggered, driftAlert, Option.isSome_some, decide_True,
            Bool.and_self, Bool.and_true]
          simp [ih, List.length_append, List.append_assoc]
        · simp only [driftLoop, hs, hl, if_true, htr, ite_false, driftMapGo, driftAlertsGo,
            driftEligible, driftTriggered, Option.isSome_some, decide_True,
            Bool.and_self, Bool.and_true]
          simp [ih, htr]
      | none =>
        simp only [driftLoop, hs, hl, if_true, driftMapGo, driftAlertsGo,
          driftEligible, Option.isSome_none, decide_True, Bool.and_false]
        simp [ih]
    · simp only [driftLoop, hs, if_false, driftMapGo, driftAlertsGo,
        driftEligible, decide_False, Bool.false_and, ite_false]
      simp [ih]




lemma impactAlerts_length (t : Nat) (inc : ComplianceIncident) :
    ∀ (cs : List ControlRequirement) (n : Nat),
    (impactAlerts t inc n cs).length
      = (cs.filter (fun c => inc.affected_controls.contains c.control_id
          && decide (c.status = ComplianceStatus.compliant))).length := by
  intro cs
  induction cs with
  | nil => intro n; simp [impactAlerts]
  | cons c cs ih =>
    intro n
    by_cases h1 : c.control_id ∈ inc.affected_controls
    · by_cases h2 : c.status = ComplianceStatus.compliant
      · simp [impactAlerts, h1, h2, ih, List.filter_cons]
      · simp [impactAlerts, h1, h2, ih, List.filter_cons]
    · simp [impactAlerts, h1, ih, List.filter_cons]

lemma impactAlerts_severity (t : Nat) (inc : ComplianceIncident) :
    ∀ (cs : List ControlRequirement) (n : Nat) (a : Alert),
    a ∈ impactAlerts t inc n cs → a.severity = inc.severity.value := by
  intro cs
  induction cs with
  | nil => intro n a h; simp [impactAlerts] at h
  | cons c cs ih =>
    intro n a h
    by_cases h1 : c.control_id ∈ inc.affected_controls ∧ c.status = ComplianceStatus.compliant
    · rw [impactAlerts, if_pos (by simpa using h1)] at h
      rcases List.mem_cons.mp h with h | h
      · rw [h]; rfl
      · exact ih (n + 1) a h
    · rw [impactAlerts, if_neg (by simpa using h1)] at h
      exact ih n a h

lemma restoredAlerts_length (t : Nat) (aff : List String) :
    ∀ (cs : List ControlRequirement) (n : Nat),
    (restoredAlerts t aff n cs).length
      = (cs.filter (fun c => aff.contains c.control_id
          && decide (c.status = ComplianceStatus.non_compliant))).length := by
  intro cs
  induction cs with
  | nil => intro n; simp [restoredAlerts]
  | cons c cs ih =>
    intro n
    by_cases h1 : c.control_id ∈ aff
    · by_cases h2 : c.status = ComplianceStatus.non_compliant
      · simp [restoredAlerts, h1, h2, ih, List.filter_cons]
      · simp [restoredAlerts, h1, h2, ih, List.filter_cons]
    · simp [restoredAlerts, h1, ih, List.filter_cons]

lemma restoredAlerts_severity (t : Nat) (aff : List String) :
    ∀ (cs : List ControlRequirement) (n : Nat) (a : Alert),
    a ∈ restoredAlerts t aff n cs → a.severity = RiskLevel.low.value := by
  intro cs
  induction cs with
  | nil => intro n a h; simp [restoredAlerts] at h
  | cons c cs ih =>
    intro n a h
    by_cases h1 : c.control_id ∈ aff ∧ c.status = ComplianceStatus.non_compliant
    · rw [restoredAlerts, if_pos (by simpa using h1)] at h
      rcases List.mem_cons.mp h with h | h
      · rw [h]; rfl
      · exact ih (n + 1) a h
    · rw [restoredAlerts, if_neg (by simpa using h1)] at h
      exact ih n a h



lemma acknowledgeLoop_none_iff (alert_id : String) :
    ∀ l : List Alert, acknowledgeLoop alert_id l = none ↔ ∀ a ∈ l, a.id ≠ alert_id := by
  intro l
  induction l with
  | nil => simp [acknowledgeLoop]
  | cons a rest ih =>
    by_cases h : a.id = alert_id
    · simp [acknowledgeLoop, h]
    · simp only [acknowledgeLoop, h, ite_false, List.mem_cons]
      constructor
      · intro hm b hb
        rcases hb with rfl | hb
        · exact h
        · refine (ih.mp ?_) b hb
          cases hl : acknowledgeLoop alert_id rest with
          | none => rfl
          | some l' => rw [hl] at hm; simp at hm
      · intro hall
        rw [ih.mpr (fun b hb => hall b (Or.inr hb))]
        rfl

lemma alert_set_acked_eq (a : Alert) (h : a.acknowledged = true) :
    { a with acknowledged := true } = a := by
  cases a; simp_all

lemma acknowledgeLoop_idem (alert_id : String) :
    ∀ l l' : List Alert, acknowledgeLoop alert_id l = some l' →
      acknowledgeLoop alert_id l' = some l' := by
  intro l
  induction l with
  | nil => intro l' h; simp [acknowledgeLoop] at h
  | cons a rest ih =>
    intro l' h
    by_cases ha : a.id = alert_id
    · simp only [acknowledgeLoop, ha, ite_true, Option.some.injEq] at h
      subst h
      simp [acknowledgeLoop, ha]
    · simp only [acknowledgeLoop, ha, ite_false] at h
      cases hl : acknowledgeLoop alert_id rest with
      | none => rw [hl] at h; simp at h
      | some m =>
        rw [hl] at h
        simp only [Option.map_some', Option.some.injEq] at h
        subst h
        simp [acknowledgeLoop, ha, ih m hl]

lemma acknowledgeLoop_first_acked (alert_id : String) :
    ∀ (l : List Alert) (a : Alert), l.find? (fun b => decide (b.id = alert_id)) = some a →
      a.acknowledged = true → acknowledgeLoop alert_id l = some l := by
  intro l
  induction l with
  | nil => intro a h; simp [List.find?] at h
  | cons b rest ih =>
    intro a hf hack
    by_cases hb : b.id = alert_id
    · rw [List.find?_cons_of_pos _ (by simpa using hb)] at hf
      injection hf with hf
      rw [← hf] at hack
      simp only [acknowledgeLoop]
      rw [if_pos hb, alert_set_acked_eq b hack]
    · rw [List.find?_cons_of_neg _ (by simpa using hb)] at hf
      simp [acknowledgeLoop, hb, ih a hf hack]




lemma resolveIncidentLoop_none_iff (t : Nat) (incident_id : String) :
    ∀ l : List ComplianceIncident, resolveIncidentLoop t incident_id l = none ↔
      ∀ inc ∈ l, ¬(inc.incident_id = incident_id ∧ inc.resolution_time = none) := by
  intro l
  induction l with
  | nil => simp [resolveIncidentLoop]
  | cons inc rest ih =>
    by_cases h : inc.incident_id = incident_id ∧ inc.resolution_time = none
    · simp [resolveIncidentLoop, h]
    · simp only [resolveIncidentLoop, h, ite_false, List.mem_cons]
      constructor
      · intro hm b hb
        rcases hb with rfl | hb
        · exact h
        · refine (ih.mp ?_) b hb
          cases hl : resolveIncidentLoop t incident_id rest with
          | none => rfl
          | some r => rw [hl] at hm; simp at hm
      · intro hall
        rw [ih.mpr (fun b hb => hall b (Or.inr hb))]
        rfl

lemma resolveIncidentLoop_eq_some (t : Nat) (incident_id : String) :
    ∀ (pre : List ComplianceIncident) (inc : ComplianceIncident) (post : List ComplianceIncident),
      (∀ i ∈ pre, ¬(i.incident_id = incident_id ∧ i.resolution_time = none)) →
      inc.incident_id = incident_id → inc.resolution_time = none →
      resolveIncidentLoop t incident_id (pre ++ inc :: post)
        = some (pre ++ { inc with resolution_time := some t } :: post,
                { inc with resolution_time := some t }) := by
  intro pre
  induction pre with
  | nil =>
    intro inc post _ h1 h2
    simp [resolveIncidentLoop, h1, h2]
  | cons p pre ih =>
    intro inc post hpre h1 h2
    have hp : ¬(p.incident_id = incident_id ∧ p.resolution_time = none) :=
      hpre p (List.mem_cons_self p pre)
    simp only [List.cons_append, resolveIncidentLoop, hp, ite_false, List.append_eq]
    rw [ih inc post (fun i hi => hpre i (List.mem_cons_of_mem p hi)) h1 h2]
    rfl

lemma implementSolutionLoop_none_iff (t : Nat) (cid sol : String) :
    ∀ cs : List ControlRequirement, implementSolutionLoop t cid sol cs = none ↔
      ∀ c ∈ cs, ¬(c.control_id = cid ∧
        (c.status = ComplianceStatus.non_compliant ∨ c.status = ComplianceStatus.in_progress)) := by
  intro cs
  induction cs with
  | nil => simp [implementSolutionLoop]
  | cons c rest ih =>
    by_cases h : c.control_id = cid ∧
        (c.status = ComplianceStatus.non_compliant ∨ c.status = ComplianceStatus.in_progress)
    · have hfalse : implementSolutionLoop t cid sol (c :: rest) ≠ none := by
        simp [implementSolutionLoop, h]
      constructor
      · intro hm; exact absurd hm hfalse
      · intro hall; exact absurd h (hall c (List.mem_cons_self c rest))
    · simp only [implementSolutionLoop, h, ite_false, List.mem_cons]
      constructor
      · intro hm b hb
        rcases hb with rfl | hb
        · exact h
        · refine (ih.mp ?_) b hb
          cases hl : implementSolutionLoop t cid sol rest with
          | none => rfl
          | some r => rw [hl] at hm; simp at hm
      · intro hall
        rw [ih.mpr (fun b hb => hall b (Or.inr hb))]
        rfl

lemma implementSolutionLoop_eq_some (t : Nat) (cid sol : String) :
    ∀ (pre : List ControlRequirement) (c : ControlRequirement) (post : List ControlRequirement),
      (∀ c' ∈ pre, ¬(c'.control_id = cid ∧
        (c'.status = ComplianceStatus.non_compliant ∨ c'.status = ComplianceStatus.in_progress))) →
      c.control_id = cid →
      (c.status = ComplianceStatus.non_compliant ∨ c.status = ComplianceStatus.in_progress) →
      implementSolutionLoop t cid sol (pre ++ c :: post)
        = some (pre ++ solutionUpdate t sol c :: post, solutionUpdate t sol c) := by
  intro pre
  induction pre with
  | nil =>
    intro c post _ h1 h2
    simp only [List.nil_append, implementSolutionLoop]
    rw [if_pos (And.intro h1 h2)]
    rfl
  | cons p pre ih =>
    intro c post hpre h1 h2
    have hp := hpre p (List.mem_cons_self p pre)
    simp only [List.cons_append, implementSolutionLoop, hp, ite_false, List.append_eq]
    rw [ih c post (fun i hi => hpre i (List.mem_cons_of_mem p hi)) h1 h2]
    rfl

lemma updateStatusLoop_counts (t : Nat) (cid : String) (st : ComplianceStatus) (notes : String) :
    ∀ (cs : List ControlRequirement) (r : List ControlRequirement × AuditEntry),
      updateStatusLoop t cid st notes cs = some r →
      r.1.map (fun c => c.incident_count) = cs.map (fun c => c.incident_count) := by
  intro cs
  induction cs with
  | nil => intro r h; simp [updateStatusLoop] at h
  | cons c rest ih =>
    intro r h
    by_cases hc : c.control_id = cid
    · simp only [updateStatusLoop, hc, ite_true, Option.some.injEq] at h
      rw [← h]
      simp
    · simp only [updateStatusLoop, hc, ite_false] at h
      cases hl : updateStatusLoop t cid st notes rest with
      | none => rw [hl] at h; simp at h
      | some m =>
        rw [hl] at h
        simp only [Option.map_some', Option.some.injEq] at h
        rw [← h]
        simp [ih m hl]

lemma solutionUpdate_count (t : Nat) (sol : String) (c : ControlRequirement) :
    (solutionUpdate t sol c).incident_count = c.incident_count := by
  simp only [solutionUpdate]
  split
  · rfl
  split
  · rfl
  split <;> rfl

lemma solutionUpdate_status (t : Nat) (sol : String) (c : ControlRequirement) :
    (solutionUpdate t sol c).status = ComplianceStatus.compliant := by
  simp only [solutionUpdate]
  split
  · rfl
  split
  · rfl
  split <;> rfl

lemma solutionUpdate_last (t : Nat) (sol : String) (c : ControlRequirement) :
    (solutionUpdate t sol c).last_assessment_date = some t := by
  simp only [solutionUpdate]
  split
  · rfl
  split
  · rfl
  split <;> rfl


/-! Claim theorems (C1, C2, C10). -/

/-- C1: the claim asserts incident identifiers are unique across the ledger
even for two incidents created from the same template code within the same
second. Counterexample: two `force_incident` calls at second 100 that both
select template 0 append two distinct ledger entries carrying the identical
identifier `SEC-001-100`. -/
theorem C1_counterexample :
    gDup.incidents.length = 2 ∧
    (gDup.incidents.map (fun i => i.incident_id)) = ["SEC-001-100", "SEC-001-100"] ∧
    ¬ (gDup.incidents.map (fun i => i.incident_id)).Nodup := by
  refine ⟨rfl, rfl, ?_⟩
  decide

/-- C1 (amended): an incident's identifier is the template code joined with
the integer-second timestamp, so identifiers of incidents built from the
template catalogs coincide exactly when both the template code and the
creation second coincide: uniqueness holds across distinct templates or
distinct seconds and fails for the same template within the same second. -/
theorem C1_incident_id_amended :
    (∀ (g : GovernanceManager) (t choice : Nat),
      (force_incident g t choice).2.incident_id
        = mkIncidentId (incidentTypesForce.getD choice defaultIncidentType).1 t) ∧
    (∀ tpl1 tpl2 : String × String × List String × RiskLevel,
      (tpl1 ∈ incidentTypesSim ∨ tpl1 ∈ incidentTypesForce) →
      (tpl2 ∈ incidentTypesSim ∨ tpl2 ∈ incidentTypesForce) →
      ∀ t s : Nat,
        mkIncidentId tpl1.1 t = mkIncidentId tpl2.1 s ↔ (tpl1.1 = tpl2.1 ∧ t = s)) := by
  constructor
  · intro g t choice; rfl
  · intro tpl1 tpl2 h1 h2 t s
    apply mkIncidentId_eq_iff
    have l1 : tpl1.1.length = 7 := by
      rcases h1 with h | h <;> fin_cases h <;> rfl
    have l2 : tpl2.1.length = 7 := by
      rcases h2 with h | h <;> fin_cases h <;> rfl
    rw [l1, l2]

theorem C1_incident_id_amended_witness :
    ((force_incident g0 5 0).2.incident_id
      = mkIncidentId (incidentTypesForce.getD 0 defaultIncidentType).1 5) ∧
    (mkIncidentId ("SEC-001") 5 = mkIncidentId ("SEC-002") 5 ↔
      (("SEC-001" : String) = "SEC-002" ∧ (5 : Nat) = 5)) := by
  constructor
  · exact C1_incident_id_amended.1 g0 5 0
  · exact C1_incident_id_amended.2
      ("SEC-001", "Failed Password Audit", ["PCI.2.1"], RiskLevel.high)
      ("SEC-002", "Firewall Misconfiguration", ["PCI.1.1"], RiskLevel.critical)
      (Or.inl (by decide)) (Or.inl (by decide)) 5 5

/-- C2: the claim asserts that for every incident with non-null resolution
timestamp, `resolve_incident` on its id fails with no mutation.
Counterexample: after two same-second forced incidents sharing id
`SEC-001-100` and one resolution, the ledger holds a resolved incident with
that id, yet resolving the id again returns success and mutates the second
(still open) ledger entry. -/
theorem C2_counterexample :
    (gDupHalf.incidents.map (fun i => i.resolution_time) = [some 200, none]) ∧
    (gDupHalf.incidents.map (fun i => i.incident_id) = ["SEC-001-100", "SEC-001-100"]) ∧
    (resolve_incident gDupHalf 300 ("SEC-001-100")).2 = true ∧
    (resolve_incident gDupHalf 300 ("SEC-001-100")).1 ≠ gDupHalf := by
  refine ⟨rfl, rfl, rfl, ?_⟩
  decide

/-- C2 (amended): if every ledger incident bearing the given incident's id is
already resolved (in particular when the identifier is unique), then
`resolve_incident` on that id returns failure and performs no mutation at
all. -/
theorem C2_resolve_resolved_noop (g : GovernanceManager) (t : Nat)
    (inc : ComplianceIncident) (hmem : inc ∈ g.incidents)
    (hres : inc.resolution_time ≠ none)
    (hall : ∀ i ∈ g.incidents, i.incident_id = inc.incident_id → i.resolution_time ≠ none) :
    resolve_incident g t inc.incident_id = (g, false) := by
  unfold resolve_incident
  rw [(resolveIncidentLoop_none_iff t inc.incident_id g.incidents).mpr
    (fun i hi hcon => hall i hi hcon.1 hcon.2)]

theorem C2_resolve_resolved_noop_witness :
    resolve_incident gC2W 70 incA.incident_id = (gC2W, false) :=
  C2_resolve_resolved_noop gC2W 70 incA (by decide) (by decide) (by decide)

lemma acknowledge_alert_eq_some (g : GovernanceManager) (alert_id : String) (l' : List Alert)
    (h : acknowledgeLoop alert_id g.alerts = some l') :
    acknowledge_alert g alert_id = ({ g with alerts := l' }, true) := by
  unfold acknowledge_alert
  rw [h]

lemma acknowledge_alert_eq_none (g : GovernanceManager) (alert_id : String)
    (h : acknowledgeLoop alert_id g.alerts = none) :
    acknowledge_alert g alert_id = (g, false) := by
  unfold acknowledge_alert
  rw [h]

/-- C10: acknowledging an alert that is already acknowledged returns success
and leaves the engine state unchanged, and acknowledgment is idempotent: when
a first acknowledge succeeds, a second acknowledge of the same id returns the
same success result and changes nothing further. -/
theorem C10_acknowledge_idempotent (g : GovernanceManager) (alert_id : String) :
    (∀ a : Alert, g.alerts.find? (fun b => decide (b.id = alert_id)) = some a →
      a.acknowledged = true → acknowledge_alert g alert_id = (g, true)) ∧
    ((acknowledge_alert g alert_id).2 = true →
      acknowledge_alert (acknowledge_alert g alert_id).1 alert_id
        = ((acknowledge_alert g alert_id).1, true)) := by
  constructor
  · intro a hf hack
    rw [acknowledge_alert_eq_some g alert_id g.alerts
      (acknowledgeLoop_first_acked alert_id g.alerts a hf hack)]
  · intro hb
    cases hl : acknowledgeLoop alert_id g.alerts with
    | none =>
      rw [acknowledge_alert_eq_none g alert_id hl] at hb
      simp at hb
    | some l' =>
      rw [acknowledge_alert_eq_some g alert_id l' hl]
      exact acknowledge_alert_eq_some { g with alerts := l' } alert_id l'
        (acknowledgeLoop_idem alert_id g.alerts l' hl)

theorem C10_acknowledge_idempotent_witness :
    (acknowledge_alert gC10W ("ALT-5-0") = (gC10W, true)) ∧
    (acknowledge_alert (acknowledge_alert gC10W ("ALT-5-0")).1 ("ALT-5-0")
      = ((acknowledge_alert gC10W ("ALT-5-0")).1, true)) := by
  constructor
  · exact (C10_acknowledge_idempotent gC10W ("ALT-5-0")).1 alertA (by decide) (by decide)
  · exact (C10_acknowledge_idempotent gC10W ("ALT-5-0")).2 (by decide)


/-! Claim theorems (C3, C5). -/


lemma apply_incident_impact_spec (g : GovernanceManager) (t : Nat) (inc : ComplianceIncident) :
    (apply_incident_impact g t inc).allControls = g.allControls.map (impactControl inc) ∧
    (apply_incident_impact g t inc).alerts
      = g.alerts ++ impactAlerts t inc g.alerts.length g.allControls ∧
    (apply_incident_impact g t inc).incidents = g.incidents ∧
    (apply_incident_impact g t inc).audit_log = g.audit_log := by
  simp only [apply_incident_impact, impactLoop_eq]
  exact ⟨allControls_setAllControls _ _, rfl, rfl, rfl⟩

lemma impactControl_id (inc : ComplianceIncident) (c : ControlRequirement) :
    (impactControl inc c).control_id = c.control_id := by
  unfold impactControl
  split
  · split <;> rfl
  · rfl

lemma impactControl_count_affected (inc : ComplianceIncident) (c : ControlRequirement)
    (h : c.control_id ∈ inc.affected_controls) :
    (impactControl inc c).incident_count = c.incident_count + 1 := by
  unfold impactControl
  rw [if_pos (by simpa using h)]
  split <;> rfl

lemma impactControl_not_affected (inc : ComplianceIncident) (c : ControlRequirement)
    (h : c.control_id ∉ inc.affected_controls) :
    impactControl inc c = c := by
  unfold impactControl
  rw [if_neg (by simpa using h)]

lemma impactControl_status_compliant (inc : ComplianceIncident) (c : ControlRequirement)
    (h : c.control_id ∈ inc.affected_controls) (h2 : c.status = ComplianceStatus.compliant) :
    (impactControl inc c).status = ComplianceStatus.non_compliant := by
  unfold impactControl
  rw [if_pos (by simpa using h), if_pos h2]

lemma impactControl_status_not_compliant (inc : ComplianceIncident) (c : ControlRequirement)
    (h2 : c.status ≠ ComplianceStatus.compliant) :
    (impactControl inc c).status = c.status := by
  unfold impactControl
  by_cases hc : inc.affected_controls.contains c.control_id
  · rw [if_pos hc, if_neg h2]
  · rw [if_neg hc]

/-- C5: a single incident-impact application maps the registry pointwise:
every affected control's incident_count is incremented by exactly 1, only
currently-compliant affected controls transition (to non_compliant), one
alert per transition carries the incident's severity; applying the same
impact twice increments the count of an initially compliant affected control
by exactly 2 and leaves it non_compliant. -/
theorem C5_incident_impact (g : GovernanceManager) (t1 t2 : Nat) (inc : ComplianceIncident) :
    (apply_incident_impact g t1 inc).allControls = g.allControls.map (impactControl inc) ∧
    (apply_incident_impact g t1 inc).alerts
      = g.alerts ++ impactAlerts t1 inc g.alerts.length g.allControls ∧
    (impactAlerts t1 inc g.alerts.length g.allControls).length
      = (g.allControls.filter (fun c => inc.affected_controls.contains c.control_id
          && decide (c.status = ComplianceStatus.compliant))).length ∧
    (∀ a ∈ impactAlerts t1 inc g.alerts.length g.allControls,
      a.severity = inc.severity.value) ∧
    (∀ c : ControlRequirement, c.control_id ∈ inc.affected_controls →
      (impactControl inc c).incident_count = c.incident_count + 1) ∧
    (∀ c : ControlRequirement, c.control_id ∉ inc.affected_controls →
      impactControl inc c = c) ∧
    (∀ c : ControlRequirement, c.control_id ∈ inc.affected_controls →
      c.status = ComplianceStatus.compliant →
      (impactControl inc c).status = ComplianceStatus.non_compliant) ∧
    (∀ c : ControlRequirement, c.status ≠ ComplianceStatus.compliant →
      (impactControl inc c).status = c.status) ∧
    (apply_incident_impact (apply_incident_impact g t1 inc) t2 inc).allControls
      = g.allControls.map (fun c => impactControl inc (impactControl inc c)) ∧
    (∀ c : ControlRequirement, c.control_id ∈ inc.affected_controls →
      c.status = ComplianceStatus.compliant →
      (impactControl inc (impactControl inc c)).incident_count = c.incident_count + 2 ∧
      (impactControl inc (impactControl inc c)).status = ComplianceStatus.non_compliant) := by
  refine ⟨(apply_incident_impact_spec g t1 inc).1, (apply_incident_impact_spec g t1 inc).2.1,
    impactAlerts_length t1 inc g.allControls g.alerts.length,
    impactAlerts_severity t1 inc g.allControls g.alerts.length,
    impactControl_count_affected inc,
    impactControl_not_affected inc,
    impactControl_status_compliant inc,
    impactControl_status_not_compliant inc,
    ?_, ?_⟩
  · rw [(apply_incident_impact_spec (apply_incident_impact g t1 inc) t2 inc).1,
      (apply_incident_impact_spec g t1 inc).1, List.map_map]
    rfl
  · intro c hmem hst
    have hid : (impactControl inc c).control_id ∈ inc.affected_controls := by
      rw [impactControl_id]; exact hmem
    constructor
    · rw [impactControl_count_affected inc _ hid, impactControl_count_affected inc c hmem]
    · have : (impactControl inc c).status = ComplianceStatus.non_compliant :=
        impactControl_status_compliant inc c hmem hst
      rw [impactControl_status_not_compliant inc _ (by rw [this]; intro hcon; cases hcon), this]



theorem C5_incident_impact_witness :
    (apply_incident_impact gC5W 5 incW).allControls
      = gC5W.allControls.map (impactControl incW) ∧
    (impactControl incW cPCI21).incident_count = cPCI21.incident_count + 1 ∧
    (impactControl incW (impactControl incW cPCI21)).incident_count = cPCI21.incident_count + 2 ∧
    (impactControl incW (impactControl incW cPCI21)).status = ComplianceStatus.non_compliant := by
  refine ⟨(C5_incident_impact gC5W 5 6 incW).1,
    (C5_incident_impact gC5W 5 6 incW).2.2.2.2.1 cPCI21 (by decide),
    ((C5_incident_impact gC5W 5 6 incW).2.2.2.2.2.2.2.2.2 cPCI21 (by decide) (by decide)).1,
    ((C5_incident_impact gC5W 5 6 incW).2.2.2.2.2.2.2.2.2 cPCI21 (by decide) (by decide)).2⟩

lemma resolve_incident_eq_some (g : GovernanceManager) (t : Nat) (incident_id : String)
    (incs' : List ComplianceIncident) (inc' : ComplianceIncident)
    (h : resolveIncidentLoop t incident_id g.incidents = some (incs', inc')) :
    resolve_incident g t incident_id
      = (setAllControls
          { g with
            incidents := incs',
            alerts := (resolveControlsLoop t inc'.affected_controls g.alerts g.allControls).2 }
          (resolveControlsLoop t inc'.affected_controls g.alerts g.allControls).1, true) := by
  unfold resolve_incident
  rw [h]

lemma restoreControl_nc (t : Nat) (aff : List String) (c : ControlRequirement)
    (h1 : c.control_id ∈ aff) (h2 : c.status = ComplianceStatus.non_compliant) :
    restoreControl t aff c
      = { c with status := ComplianceStatus.compliant, last_assessment_date := some t } := by
  unfold restoreControl
  rw [if_pos (And.intro (by simpa using h1) h2)]

lemma restoreControl_other (t : Nat) (aff : List String) (c : ControlRequirement)
    (h : ¬(c.control_id ∈ aff ∧ c.status = ComplianceStatus.non_compliant)) :
    restoreControl t aff c = c := by
  unfold restoreControl
  rw [if_neg (by simpa using h)]

/-- C3: resolving an open incident (whose id no earlier open ledger entry
shares) returns success, sets that incident's resolution timestamp to now,
restores every affected non_compliant control to compliant with a refreshed
last-assessment timestamp and one low-severity alert each, and leaves all
other controls and the audit log untouched. -/
theorem C3_resolve_open_incident (g : GovernanceManager) (t : Nat)
    (pre : List ComplianceIncident) (inc : ComplianceIncident) (post : List ComplianceIncident)
    (hsplit : g.incidents = pre ++ inc :: post)
    (hopen : inc.resolution_time = none)
    (hpre : ∀ i ∈ pre, i.incident_id = inc.incident_id → i.resolution_time ≠ none) :
    (resolve_incident g t inc.incident_id).2 = true ∧
    (resolve_incident g t inc.incident_id).1.incidents
      = pre ++ { inc with resolution_time := some t } :: post ∧
    (resolve_incident g t inc.incident_id).1.allControls
      = g.allControls.map (restoreControl t inc.affected_controls) ∧
    (∀ c : ControlRequirement, c.control_id ∈ inc.affected_controls →
      c.status = ComplianceStatus.non_compliant →
      restoreControl t inc.affected_controls c
        = { c with status := ComplianceStatus.compliant, last_assessment_date := some t }) ∧
    (∀ c : ControlRequirement,
      ¬(c.control_id ∈ inc.affected_controls ∧ c.status = ComplianceStatus.non_compliant) →
      restoreControl t inc.affected_controls c = c) ∧
    (resolve_incident g t inc.incident_id).1.alerts
      = g.alerts ++ restoredAlerts t inc.affected_controls g.alerts.length g.allControls ∧
    (restoredAlerts t inc.affected_controls g.alerts.length g.allControls).length
      = (g.allControls.filter (fun c => inc.affected_controls.contains c.control_id
          && decide (c.status = ComplianceStatus.non_compliant))).length ∧
    (∀ a ∈ restoredAlerts t inc.affected_controls g.alerts.length g.allControls,
      a.severity = RiskLevel.low.value) ∧
    (resolve_incident g t inc.incident_id).1.audit_log = g.audit_log := by
  have hloop : resolveIncidentLoop t inc.incident_id g.incidents
      = some (pre ++ { inc with resolution_time := some t } :: post,
              { inc with resolution_time := some t }) := by
    rw [hsplit]
    exact resolveIncidentLoop_eq_some t inc.incident_id pre inc post
      (fun i hi hcon => hpre i hi hcon.1 hcon.2) rfl hopen
  have hmain := resolve_incident_eq_some g t inc.incident_id _ _ hloop
  refine ⟨by rw [hmain], by rw [hmain]; rfl, ?_,
    restoreControl_nc t inc.affected_controls,
    restoreControl_other t inc.affected_controls, ?_,
    restoredAlerts_length t inc.affected_controls g.allControls g.alerts.length,
    restoredAlerts_severity t inc.affected_controls g.allControls g.alerts.length,
    by rw [hmain]; rfl⟩
  · rw [hmain, allControls_setAllControls, resolveControlsLoop_eq]
  · rw [hmain]
    show (resolveControlsLoop t inc.affected_controls g.alerts g.allControls).2 = _
    rw [resolveControlsLoop_eq]

theorem C3_resolve_open_incident_witness :
    (resolve_incident gC3W 9 incOpen.incident_id).2 = true ∧
    (resolve_incident gC3W 9 incOpen.incident_id).1.incidents
      = [{ incOpen with resolution_time := some 9 }] ∧
    (resolve_incident gC3W 9 incOpen.incident_id).1.allControls
      = gC3W.allControls.map (restoreControl 9 incOpen.affected_controls) := by
  have h := C3_resolve_open_incident gC3W 9 [] incOpen [] rfl rfl (by simp)
  exact ⟨h.1, h.2.1, h.2.2.1⟩


/-! Claim theorems (C4, C6). -/


/-- C3 counterexample support: in a ledger where two open incidents share an
identifier, resolving the id sets the first entry's resolution timestamp,
not the second (open) incident's. -/
theorem C3_counterexample :
    (gDup.incidents.map (fun i => i.resolution_time) = [none, none]) ∧
    (gDup.incidents.map (fun i => i.incident_id) = ["SEC-001-100", "SEC-001-100"]) ∧
    (resolve_incident gDup 200 ("SEC-001-100")).2 = true ∧
    ((resolve_incident gDup 200 ("SEC-001-100")).1.incidents.map (fun i => i.resolution_time)
      = [some 200, none]) :=
  ⟨rfl, rfl, rfl, rfl⟩

lemma implement_solution_eq_none (g : GovernanceManager) (t : Nat) (cid sol : String)
    (h : implementSolutionLoop t cid sol g.allControls = none) :
    implement_solution g t cid sol = (g, false) := by
  unfold implement_solution
  rw [h]

lemma implement_solution_eq_some (g : GovernanceManager) (t : Nat) (cid sol : String)
    (cs' : List ControlRequirement) (c' : ControlRequirement)
    (h : implementSolutionLoop t cid sol g.allControls = some (cs', c')) :
    implement_solution g t cid sol
      = (create_alert
          { setAllControls g cs' with
            audit_log := g.audit_log
              ++ [AuditEntry.solutionImplemented t cid sol (solutionsGet sol)] }
          t ("Solution implemented: " ++ c'.control_id)
          ("Control " ++ c'.control_id ++ " restored via " ++ sol ++ ": " ++ solutionsGet sol)
          RiskLevel.low, true) := by
  unfold implement_solution
  rw [h]
  rfl

lemma create_alert_allControls (g : GovernanceManager) (t : Nat) (title message : String)
    (sev : RiskLevel) : (create_alert g t title message sev).allControls = g.allControls := rfl

/-- C4: `implement_solution` fails without mutation when the control id is
unknown or the (unique) matching control's status is outside
{non_compliant, in_progress}; on success the control becomes compliant with
last-assessment refreshed, and the `automation` solution on a control with
automation_level 0.5 yields 0.8 (min(1, +0.3)) and multiplies the drift
factor by 0.7. -/
theorem C4_implement_solution (g : GovernanceManager) (t : Nat) (cid sol : String)
    (hnodup : (g.allControls.map (fun c => c.control_id)).Nodup) :
    ((∀ c ∈ g.allControls, c.control_id ≠ cid) → implement_solution g t cid sol = (g, false)) ∧
    (∀ c ∈ g.allControls, c.control_id = cid →
      c.status ≠ ComplianceStatus.non_compliant → c.status ≠ ComplianceStatus.in_progress →
      implement_solution g t cid sol = (g, false)) ∧
    (∀ (pre : List ControlRequirement) (c : ControlRequirement) (post : List ControlRequirement),
      g.allControls = pre ++ c :: post → c.control_id = cid →
      (c.status = ComplianceStatus.non_compliant ∨ c.status = ComplianceStatus.in_progress) →
      (implement_solution g t cid sol).2 = true ∧
      (implement_solution g t cid sol).1.allControls = pre ++ solutionUpdate t sol c :: post ∧
      (solutionUpdate t sol c).status = ComplianceStatus.compliant ∧
      (solutionUpdate t sol c).last_assessment_date = some t ∧
      (sol = "automation" → c.automation_level = 0.5 →
        (solutionUpdate t sol c).automation_level = 0.8 ∧
        (solutionUpdate t sol c).compliance_drift_factor = c.compliance_drift_factor * 0.7)) := by
  refine ⟨?_, ?_, ?_⟩
  · intro hunk
    exact implement_solution_eq_none g t cid sol
      ((implementSolutionLoop_none_iff t cid sol g.allControls).mpr
        (fun c hc hcon => hunk c hc hcon.1))
  · intro c hc hcid hnc hip
    refine implement_solution_eq_none g t cid sol
      ((implementSolutionLoop_none_iff t cid sol g.allControls).mpr ?_)
    intro c' hc' hcon
    have hceq : c' = c :=
      List.inj_on_of_nodup_map hnodup hc' hc (by rw [hcon.1, hcid])
    subst hceq
    rcases hcon.2 with h | h
    · exact hnc h
    · exact hip h
  · intro pre c post hsplit hcid hst
    have hpre : ∀ c' ∈ pre, ¬(c'.control_id = cid ∧
        (c'.status = ComplianceStatus.non_compliant ∨ c'.status = ComplianceStatus.in_progress)) := by
      intro c' hc' hcon
      have hmem : (fun x => x.control_id) c' ∈ pre.map (fun x => x.control_id) :=
        List.mem_map_of_mem _ hc'
      have hnd := hnodup
      rw [hsplit, List.map_append, List.map_cons, List.nodup_append] at hnd
      have hdisj := hnd.2.2
      have : c'.control_id ∉ c.control_id :: post.map (fun x => x.control_id) := hdisj hmem
      exact this (by rw [hcon.1, hcid]; exact List.mem_cons_self _ _)
    have hloop : implementSolutionLoop t cid sol g.allControls
        = some (pre ++ solutionUpdate t sol c :: post, solutionUpdate t sol c) := by
      rw [hsplit]
      exact implementSolutionLoop_eq_some t cid sol pre c post hpre hcid hst
    have hmain := implement_solution_eq_some g t cid sol _ _ hloop
    refine ⟨by rw [hmain], ?_, solutionUpdate_status t sol c, solutionUpdate_last t sol c, ?_⟩
    · rw [hmain, create_alert_allControls]
      show (setAllControls g (pre ++ solutionUpdate t sol c :: post)).allControls = _
      rw [allControls_setAllControls]
    · rintro rfl hauto
      constructor
      · have haux : (solutionUpdate t ("automation") c).automation_level
            = min 1.0 (c.automation_level + 0.3) := rfl
        rw [haux, hauto]
        norm_num [min_def]
      · rfl

theorem C4_implement_solution_witness :
    (implement_solution gC4W 11 ("PCI.2.1") ("automation")).2 = true ∧
    (implement_solution gC4W 11 ("PCI.2.1") ("automation")).1.allControls
      = [solutionUpdate 11 ("automation") cAuto] ∧
    (solutionUpdate 11 ("automation") cAuto).status = ComplianceStatus.compliant ∧
    (solutionUpdate 11 ("automation") cAuto).automation_level = 0.8 := by
  have h := (C4_implement_solution gC4W 11 ("PCI.2.1") ("automation") (by decide)).2.2
    [] cAuto [] rfl rfl (Or.inl rfl)
  exact ⟨h.1, h.2.1, h.2.2.1, (h.2.2.2.2 rfl (by norm_num [cAuto, cPCI21])).1⟩



/-- C6: for any control list, the summary counts equal the number of controls
in each status, and compliance_percentage equals compliant/total × 100
rounded to two decimals, with 0 for an empty list and exactly 100 when the
list is non-empty and fully compliant. -/
theorem C6_summary (controls : List ControlRequirement) (std : String) :
    (get_standard_summary controls std).standard = std ∧
    (get_standard_summary controls std).total_controls = controls.length ∧
    (get_standard_summary controls std).compliant
      = (controls.filter (fun c => decide (c.status = ComplianceStatus.compliant))).length ∧
    (get_standard_summary controls std).non_compliant
      = (controls.filter (fun c => decide (c.status = ComplianceStatus.non_compliant))).length ∧
    (get_standard_summary controls std).in_progress
      = (controls.filter (fun c => decide (c.status = ComplianceStatus.in_progress))).length ∧
    (get_standard_summary controls std).not_assessed
      = (controls.filter (fun c => decide (c.status = ComplianceStatus.not_assessed))).length ∧
    (get_standard_summary controls std).compliance_percentage
      = roundTo2 (if 0 < controls.length
          then (((controls.filter (fun c => decide (c.status = ComplianceStatus.compliant))).length : Rat)
            / (controls.length : Rat)) * 100
          else 0) ∧
    (controls = [] → (get_standard_summary controls std).compliance_percentage = 0) ∧
    ((∀ c ∈ controls, c.status = ComplianceStatus.compliant) → controls ≠ [] →
      (get_standard_summary controls std).compliance_percentage = 100) := by
  refine ⟨rfl, rfl, rfl, rfl, rfl, rfl, rfl, ?_, ?_⟩
  · rintro rfl
    show roundTo2 (if 0 < (0 : Nat) then _ else 0) = 0
    norm_num [roundTo2]
  · intro hall hne
    have hfilter : controls.filter (fun c => decide (c.status = ComplianceStatus.compliant))
        = controls :=
      List.filter_eq_self.mpr (fun c hc => by simpa using hall c hc)
    have hlen : (0 : Nat) < controls.length := List.length_pos.mpr hne
    show roundTo2 (if 0 < controls.length
        then (((controls.filter (fun c => decide (c.status = ComplianceStatus.compliant))).length : Rat)
          / (controls.length : Rat)) * 100
        else 0) = 100
    rw [if_pos hlen, hfilter]
    have hne' : ((controls.length : Rat)) ≠ 0 := by
      exact_mod_cast Nat.pos_iff_ne_zero.mp hlen
    rw [div_self hne', one_mul]
    show roundTo2 100 = 100
    rw [roundTo2, show ((100 : Rat) * 100) = ((10000 : Int) : Rat) by norm_num,
      round_intCast]
    norm_num

theorem C6_summary_witness :
    (get_standard_summary ([] : List ControlRequirement) ("ISO27001")).compliance_percentage
      = 0 ∧
    (get_standard_summary [cPCI21] ("PCI_DSS")).compliance_percentage = 100 ∧
    (get_standard_summary [cPCI21] ("PCI_DSS")).compliant
      = ([cPCI21].filter (fun c => decide (c.status = ComplianceStatus.compliant))).length := by
  refine ⟨(C6_summary [] ("ISO27001")).2.2.2.2.2.2.2.1 rfl,
    (C6_summary [cPCI21] ("PCI_DSS")).2.2.2.2.2.2.2.2 (by decide) (by decide),
    (C6_summary [cPCI21] ("PCI_DSS")).2.2.1⟩


/-! Claim theorem (C7). -/
lemma check_compliance_drift_spec (g : GovernanceManager) (t : Nat) (rand : Nat → Rat) :
    (check_compliance_drift g t rand).allControls = driftMapGo t rand 0 g.allControls ∧
    (check_compliance_drift g t rand).alerts
      = g.alerts ++ driftAlertsGo t rand 0 g.alerts.length g.allControls ∧
    (check_compliance_drift g t rand).incidents = g.incidents ∧
    (check_compliance_drift g t rand).audit_log = g.audit_log := by
  simp only [check_compliance_drift, driftLoop_eq]
  exact ⟨allControls_setAllControls _ _, rfl, rfl, rfl⟩

lemma driftMapGo_append (t : Nat) (rand : Nat → Rat) :
    ∀ (pre cs : List ControlRequirement) (k : Nat),
    driftMapGo t rand k (pre ++ cs)
      = driftMapGo t rand k pre
        ++ driftMapGo t rand (k + (pre.filter driftEligible).length) cs := by
  intro pre
  induction pre with
  | nil => intro cs k; simp [driftMapGo]
  | cons c pre ih =>
    intro cs k
    by_cases h : driftEligible c
    · simp only [List.cons_append, driftMapGo, h, ite_true, List.filter_cons, if_pos h]
      rw [show pre.append cs = pre ++ cs from rfl, ih cs (k + 1)]
      have harith : k + 1 + (pre.filter driftEligible).length
          = k + ((pre.filter driftEligible).length + 1) := by omega
      rw [harith]
      simp
    · simp only [List.cons_append, driftMapGo, h, ite_false, List.filter_cons, if_neg h]
      rw [show pre.append cs = pre ++ cs from rfl, ih cs k]
      simp

lemma driftAlertsGo_append (t : Nat) (rand : Nat → Rat) :
    ∀ (pre cs : List ControlRequirement) (k n : Nat),
    driftAlertsGo t rand k n (pre ++ cs)
      = driftAlertsGo t rand k n pre
        ++ driftAlertsGo t rand (k + (pre.filter driftEligible).length)
            (n + driftTrigCount t rand k pre) cs := by
  intro pre
  induction pre with
  | nil => intro cs k n; simp [driftAlertsGo, driftTrigCount]
  | cons c pre ih =>
    intro cs k n
    by_cases h : driftEligible c
    · by_cases htr : driftTriggered t (rand k) c
      · simp only [List.cons_append, driftAlertsGo, driftTrigCount, h, htr, ite_true,
          List.filter_cons, if_pos h]
        rw [show pre.append cs = pre ++ cs from rfl, ih cs (k + 1) (n + 1)]
        have h1 : k + 1 + (pre.filter driftEligible).length
            = k + ((pre.filter driftEligible).length + 1) := by omega
        have h2 : n + 1 + driftTrigCount t rand (k + 1) pre
            = n + (1 + driftTrigCount t rand (k + 1) pre) := by omega
        rw [h1, h2]
        simp
      · simp only [List.cons_append, driftAlertsGo, driftTrigCount, h, htr, ite_true,
          ite_false, List.filter_cons, if_pos h]
        rw [show pre.append cs = pre ++ cs from rfl, ih cs (k + 1) n]
        have h1 : k + 1 + (pre.filter driftEligible).length
            = k + ((pre.filter driftEligible).length + 1) := by omega
        rw [h1]
        simp
    · simp only [List.cons_append, driftAlertsGo, driftTrigCount, h, ite_false,
        List.filter_cons, if_neg h]
      rw [show pre.append cs = pre ++ cs from rfl, ih cs k n]
      simp

lemma driftAlertsGo_length (t : Nat) (rand : Nat → Rat) :
    ∀ (cs : List ControlRequirement) (k n : Nat),
    (driftAlertsGo t rand k n cs).length = driftTrigCount t rand k cs := by
  intro cs
  induction cs with
  | nil => intro k n; simp [driftAlertsGo, driftTrigCount]
  | cons c cs ih =>
    intro k n
    by_cases h : driftEligible c
    · by_cases htr : driftTriggered t (rand k) c
      · simp only [driftAlertsGo, driftTrigCount, h, htr, ite_true, List.length_cons]
        rw [ih (k + 1) (n + 1)]
        omega
      · simp only [driftAlertsGo, driftTrigCount, h, htr, ite_true, ite_false]
        exact ih (k + 1) n
    · simp only [driftAlertsGo, driftTrigCount, h, ite_false]
      exact ih k n



/-- C7: a drift-check tick examines exactly the compliant controls with a
non-null last-assessment date; for such a control the drift probability is
drift_factor × (whole-days-since / 30) × (1 − automation_level), the control
transitions to in_progress exactly when its uniform draw is below
probability × 0.3, and each transition appends one alert carrying the
control's risk level and a title referencing the control id; all other
controls are untouched. -/
theorem C7_drift_check (g : GovernanceManager) (t : Nat) (rand : Nat → Rat)
    (pre : List ControlRequirement) (c : ControlRequirement) (post : List ControlRequirement)
    (hsplit : g.allControls = pre ++ c :: post) :
    (∀ last : Nat, driftProbability t c last
      = c.compliance_drift_factor
        * (((((t : Int) - (last : Int)).fdiv 86400 : Int) : Rat) / 30)
        * (1 - c.automation_level)) ∧
    (¬(c.status = ComplianceStatus.compliant ∧ c.last_assessment_date ≠ none) →
      (check_compliance_drift g t rand).allControls
        = driftMapGo t rand 0 pre
          ++ c :: driftMapGo t rand ((pre.filter driftEligible).length) post) ∧
    (∀ last : Nat, c.last_assessment_date = some last → c.status = ComplianceStatus.compliant →
      (rand ((pre.filter driftEligible).length) < driftProbability t c last * 0.3 →
        (check_compliance_drift g t rand).allControls
          = driftMapGo t rand 0 pre
            ++ { c with status := ComplianceStatus.in_progress }
              :: driftMapGo t rand ((pre.filter driftEligible).length + 1) post ∧
        (check_compliance_drift g t rand).alerts
          = g.alerts ++ driftAlertsGo t rand 0 g.alerts.length pre
            ++ driftAlert t (g.alerts.length + driftTrigCount t rand 0 pre) c
              :: driftAlertsGo t rand ((pre.filter driftEligible).length + 1)
                  (g.alerts.length + driftTrigCount t rand 0 pre + 1) post ∧
        (driftAlert t (g.alerts.length + driftTrigCount t rand 0 pre) c).severity
          = c.risk_level.value ∧
        (driftAlert t (g.alerts.length + driftTrigCount t rand 0 pre) c).title
          = "Compliance drift detected for " ++ c.control_id) ∧
      (¬(rand ((pre.filter driftEligible).length) < driftProbability t c last * 0.3) →
        (check_compliance_drift g t rand).allControls
          = driftMapGo t rand 0 pre
            ++ c :: driftMapGo t rand ((pre.filter driftEligible).length + 1) post ∧
        (check_compliance_drift g t rand).alerts
          = g.alerts ++ driftAlertsGo t rand 0 g.alerts.length pre
            ++ driftAlertsGo t rand ((pre.filter driftEligible).length + 1)
                (g.alerts.length + driftTrigCount t rand 0 pre) post)) ∧
    (check_compliance_drift g t rand).alerts.length
      = g.alerts.length + driftTrigCount t rand 0 g.allControls ∧
    (check_compliance_drift g t rand).incidents = g.incidents ∧
    (check_compliance_drift g t rand).audit_log = g.audit_log := by
  have hspec := check_compliance_drift_spec g t rand
  refine ⟨fun last => rfl, ?_, ?_, ?_, hspec.2.2.1, hspec.2.2.2⟩
  · intro hne
    have helig : driftEligible c = false := by
      unfold driftEligible
      rcases not_and_or.mp hne with h | h
      · simp [h]
      · rw [not_not] at h
        simp [h]
    rw [hspec.1, hsplit, driftMapGo_append]
    simp only [driftMapGo, helig, ite_false, Nat.zero_add, Bool.false_eq_true]
  · intro last hl hs
    have helig : driftEligible c = true := by
      simp [driftEligible, hs, hl]
    constructor
    · intro htrig
      have htrigb : driftTriggered t (rand ((pre.filter driftEligible).length)) c = true := by
        simp [driftTriggered, hl, htrig]
      refine ⟨?_, ?_, rfl, rfl⟩
      · rw [hspec.1, hsplit, driftMapGo_append]
        simp only [driftMapGo, helig, ite_true, Nat.zero_add, htrigb]
      · rw [hspec.2.1, hsplit, driftAlertsGo_append]
        simp only [driftAlertsGo, helig, ite_true, Nat.zero_add, htrigb,
          driftAlertsGo_length, List.append_assoc]
    · intro htrig
      have htrigb : driftTriggered t (rand ((pre.filter driftEligible).length)) c = false := by
        simp [driftTriggered, hl, htrig]
      refine ⟨?_, ?_⟩
      · rw [hspec.1, hsplit, driftMapGo_append]
        simp only [driftMapGo, helig, ite_true, Nat.zero_add, htrigb, Bool.false_eq_true,
          ite_false]
      · rw [hspec.2.1, hsplit, driftAlertsGo_append]
        simp only [driftAlertsGo, helig, ite_true, Nat.zero_add, htrigb, Bool.false_eq_true,
          ite_false, driftAlertsGo_length, List.append_assoc]
  · rw [hspec.2.1, List.length_append, driftAlertsGo_length]



theorem C7_drift_check_witness :
    ((check_compliance_drift gC7W 3456005 (fun _ => 0.1)).allControls
      = driftMapGo 3456005 (fun _ => 0.1) 0 []
        ++ { cDrift with status := ComplianceStatus.in_progress }
          :: driftMapGo 3456005 (fun _ => 0.1)
              ((([] : List ControlRequirement).filter driftEligible).length + 1) []) ∧
    ((driftAlert 3456005
        (gC7W.alerts.length + driftTrigCount 3456005 (fun _ => 0.1) 0 []) cDrift).severity
      = cDrift.risk_level.value) ∧
    ((driftAlert 3456005
        (gC7W.alerts.length + driftTrigCount 3456005 (fun _ => 0.1) 0 []) cDrift).title
      = "Compliance drift detected for " ++ cDrift.control_id) := by
  have htrv : ((fun _ => (0.1 : Rat)) ((([] : List ControlRequirement).filter driftEligible).length))
      < driftProbability 3456005 cDrift 5 * 0.3 := by
    show (0.1 : Rat) < 0.3 * ((((40 : Int) : Rat)) / 30) * (1 - 0) * 0.3
    norm_num
  have h := (C7_drift_check gC7W 3456005 (fun _ => 0.1) [] cDrift [] rfl).2.2.1 5 rfl rfl
  have htr := h.1 htrv
  exact ⟨htr.1, htr.2.2.1, htr.2.2.2⟩


/-! Claim theorem (C8). -/

lemma countsMono_of_eq (g g' : GovernanceManager) (h : g'.allControls = g.allControls) :
    countsMono g g' := by
  unfold countsMono
  rw [h]
  exact List.forall₂_same.mpr (fun x _ => le_refl x)

lemma countsMono_of_map (g g' : GovernanceManager) (f : ControlRequirement → ControlRequirement)
    (hc : g'.allControls = g.allControls.map f)
    (hf : ∀ c, c.incident_count ≤ (f c).incident_count) : countsMono g g' := by
  unfold countsMono
  rw [hc]
  generalize g.allControls = l
  induction l with
  | nil => exact List.Forall₂.nil
  | cons c cs ih => exact List.Forall₂.cons (hf c) ih

lemma countsMono_of_map_eq (g g' : GovernanceManager)
    (h : g'.allControls.map (fun c => c.incident_count)
      = g.allControls.map (fun c => c.incident_count)) : countsMono g g' := by
  unfold countsMono
  rw [h]
  exact List.forall₂_same.mpr (fun x _ => le_refl x)

lemma impactControl_count_le (inc : ComplianceIncident) (c : ControlRequirement) :
    c.incident_count ≤ (impactControl inc c).incident_count := by
  unfold impactControl
  by_cases h : inc.affected_controls.contains c.control_id
  · rw [if_pos h]
    split <;> exact Nat.le_succ _
  · rw [if_neg h]

lemma restoreControl_count (t : Nat) (aff : List String) (c : ControlRequirement) :
    (restoreControl t aff c).incident_count = c.incident_count := by
  unfold restoreControl
  split <;> rfl

lemma driftMapGo_counts (t : Nat) (rand : Nat → Rat) :
    ∀ (cs : List ControlRequirement) (k : Nat),
    (driftMapGo t rand k cs).map (fun c => c.incident_count)
      = cs.map (fun c => c.incident_count) := by
  intro cs
  induction cs with
  | nil => intro k; rfl
  | cons c cs ih =>
    intro k
    by_cases h : driftEligible c
    · by_cases htr : driftTriggered t (rand k) c
      · simp [driftMapGo, h, htr, ih]
      · simp [driftMapGo, h, htr, ih]
    · simp [driftMapGo, h, ih]

lemma implementSolutionLoop_counts (t : Nat) (cid sol : String) :
    ∀ (cs : List ControlRequirement) (r : List ControlRequirement × ControlRequirement),
      implementSolutionLoop t cid sol cs = some r →
      r.1.map (fun c => c.incident_count) = cs.map (fun c => c.incident_count) := by
  intro cs
  induction cs with
  | nil => intro r h; simp [implementSolutionLoop] at h
  | cons c rest ih =>
    intro r h
    by_cases hc : c.control_id = cid ∧
        (c.status = ComplianceStatus.non_compliant ∨ c.status = ComplianceStatus.in_progress)
    · have he := implementSolutionLoop_eq_some t cid sol [] c rest (by simp) hc.1 hc.2
      simp only [List.nil_append] at he
      rw [he] at h
      have hr := Option.some.inj h
      rw [← hr]
      simp [solutionUpdate_count]
    · simp only [implementSolutionLoop, hc, ite_false] at h
      cases hl : implementSolutionLoop t cid sol rest with
      | none => rw [hl] at h; simp at h
      | some m =>
        rw [hl] at h
        simp only [Option.map_some', Option.some.injEq] at h
        rw [← h]
        simp [ih m hl]

lemma map_count_restore (t : Nat) (aff : List String) (l : List ControlRequirement) :
    (l.map (restoreControl t aff)).map (fun c => c.incident_count)
      = l.map (fun c => c.incident_count) := by
  induction l with
  | nil => rfl
  | cons c cs ih => simp [restoreControl_count, ih]

lemma acknowledge_alert_controls (g : GovernanceManager) (aid : String) :
    (acknowledge_alert g aid).1.allControls = g.allControls := by
  cases hl : acknowledgeLoop aid g.alerts with
  | none => rw [acknowledge_alert_eq_none g aid hl]
  | some l' =>
    rw [acknowledge_alert_eq_some g aid l' hl]
    rfl

/-- C8: every engine operation (drift check, incident simulation, incident
impact application, overdue-review check, status update, incident
resolution, solution implementation, alert acknowledgment, forced incident)
leaves every control's incident_count pointwise greater than or equal to its
previous value: the counter is monotonically non-decreasing. -/
theorem C8_incident_count_monotone :
    (∀ (g : GovernanceManager) (t : Nat) (rand : Nat → Rat),
      countsMono g (check_compliance_drift g t rand)) ∧
    (∀ (g : GovernanceManager) (t : Nat) (r : Rat) (choice : Nat),
      countsMono g (simulate_incidents g t r choice)) ∧
    (∀ (g : GovernanceManager) (t : Nat) (inc : ComplianceIncident),
      countsMono g (apply_incident_impact g t inc)) ∧
    (∀ (g : GovernanceManager) (t : Nat) (parseDate : String → Option Nat),
      countsMono g (check_overdue_reviews g t parseDate)) ∧
    (∀ (g : GovernanceManager) (t : Nat) (cid : String) (st : ComplianceStatus) (notes : String),
      countsMono g (update_control_status g t cid st notes).1) ∧
    (∀ (g : GovernanceManager) (t : Nat) (iid : String),
      countsMono g (resolve_incident g t iid).1) ∧
    (∀ (g : GovernanceManager) (t : Nat) (cid sol : String),
      countsMono g (implement_solution g t cid sol).1) ∧
    (∀ (g : GovernanceManager) (aid : String),
      countsMono g (acknowledge_alert g aid).1) ∧
    (∀ (g : GovernanceManager) (t : Nat) (choice : Nat),
      countsMono g (force_incident g t choice).1) := by
  have himpact : ∀ (g : GovernanceManager) (t : Nat) (inc : ComplianceIncident),
      countsMono g (apply_incident_impact g t inc) := by
    intro g t inc
    exact countsMono_of_map g _ (impactControl inc)
      (apply_incident_impact_spec g t inc).1 (impactControl_count_le inc)
  refine ⟨?_, ?_, himpact, ?_, ?_, ?_, ?_, ?_, ?_⟩
  · intro g t rand
    refine countsMono_of_map_eq g _ ?_
    rw [(check_compliance_drift_spec g t rand).1, driftMapGo_counts]
  · intro g t r choice
    unfold simulate_incidents
    by_cases hr : r < 0.15
    · rw [if_pos hr]
      refine countsMono_of_map g _
        (impactControl (mkIncident (incidentTypesSim.getD choice defaultIncidentType)
          ("Automated incident simulation: ") t)) ?_ (impactControl_count_le _)
      exact (apply_incident_impact_spec _ t _).1
    · rw [if_neg hr]
      exact countsMono_of_eq g g rfl
  · intro g t parseDate
    exact countsMono_of_eq g _ rfl
  · intro g t cid st notes
    unfold update_control_status
    cases hl : updateStatusLoop t cid st notes g.allControls with
    | none => exact countsMono_of_eq g g rfl
    | some m =>
      refine countsMono_of_map_eq g _ ?_
      show (setAllControls { g with audit_log := g.audit_log ++ [m.2] } m.1).allControls.map _ = _
      rw [allControls_setAllControls]
      exact updateStatusLoop_counts t cid st notes g.allControls m hl
  · intro g t iid
    cases hl : resolveIncidentLoop t iid g.incidents with
    | none =>
      refine countsMono_of_eq g _ ?_
      unfold resolve_incident
      rw [hl]
    | some m =>
      have hmain := resolve_incident_eq_some g t iid m.1 m.2 (by rw [hl])
      rw [hmain]
      refine countsMono_of_map_eq g _ ?_
      show (setAllControls _ (resolveControlsLoop t m.2.affected_controls g.alerts g.allControls).1).allControls.map _ = _
      rw [allControls_setAllControls, resolveControlsLoop_eq]
      exact map_count_restore t m.2.affected_controls g.allControls
  · intro g t cid sol
    cases hl : implementSolutionLoop t cid sol g.allControls with
    | none =>
      refine countsMono_of_eq g _ ?_
      rw [implement_solution_eq_none g t cid sol hl]
    | some m =>
      have hmain := implement_solution_eq_some g t cid sol m.1 m.2 (by rw [hl])
      rw [hmain]
      refine countsMono_of_map_eq g _ ?_
      show (create_alert _ t _ _ RiskLevel.low).allControls.map _ = _
      rw [create_alert_allControls]
      show (setAllControls g m.1).allControls.map _ = _
      rw [allControls_setAllControls]
      exact implementSolutionLoop_counts t cid sol g.allControls m hl
  · intro g aid
    exact countsMono_of_eq g _ (acknowledge_alert_controls g aid)
  · intro g t choice
    unfold force_incident
    refine countsMono_of_map g _
      (impactControl (mkIncident (incidentTypesForce.getD choice defaultIncidentType)
        ("Manually triggered incident: ") t)) ?_ (impactControl_count_le _)
    exact (apply_incident_impact_spec _ t _).1


end Governance
